import Mathlib

/-!
Verification of the execution-lifecycle client of a Telegram relay bot
(`src/bot.py`): job submission, status polling with a wall-clock budget,
result fetching, and extraction of display text from a loosely structured
result payload.

Modelling conventions (shallow embedding):
* JSON values parsed by `json` are modelled by the mutual inductive
  `JVal`/`JArr`/`JObj`.  Python collapses an absent key and a key whose
  value is `None` under `dict.get`, so `JObj.get` returns `JVal.jnull`
  for a missing key.
* Python exceptions relevant to the client are modelled by `PyExc`:
  `requests.exceptions.Timeout`, any other
  `requests.exceptions.RequestException` (carrying its rendered detail),
  and any other exception (`AttributeError` etc.).
* Network behaviour is an oracle `Backend` giving the response (or
  transport failure) of the submission call, of the i-th status poll of
  the run's single execution id, and of the result fetch.
* `time.monotonic()` readings are modelled by `clock : Nat → Int`
  (integer time units; reading 0 is `t0` taken at submission, reading
  `i+1` is the one taken by the budget check of poll iteration `i`).
  Python compares floats; the claims under verification only concern
  order/threshold facts, which the integer model preserves.
* Python `str.strip` is modelled by `String.trim` (ASCII whitespace) and
  `str.lower` by `String.toLower`; all statuses and keys involved are
  ASCII.
* The unbounded `while True` poll loop is modelled with fuel; `none`
  means the fuel bound was hit before the loop exited.
-/

/-! ## JSON values (the result of `json` parsing in Python) -/

mutual
inductive JVal : Type where
  | jnull : JVal
  | jbool : Bool → JVal
  | jnum : Int → JVal
  | jstr : String → JVal
  | jarr : JArr → JVal
  | jobj : JObj → JVal
  deriving DecidableEq
inductive JArr : Type where
  | anil : JArr
  | acons : JVal → JArr → JArr
  deriving DecidableEq
inductive JObj : Type where
  | onil : JObj
  | ocons : String → JVal → JObj → JObj
  deriving DecidableEq
end

/-- Python `dict.get(key)`: the stored value, or `None` for a missing key
(an absent key and a stored `None` are indistinguishable, both `jnull`). -/
def JObj.get : JObj → String → JVal
  | .onil, _ => .jnull
  | .ocons k v t, key => if k = key then v else t.get key

/-- Python truthiness of a parsed-JSON value (`if not execution_id`,
`x or ""`). -/
def pyTruthy : JVal → Bool
  | .jnull => false
  | .jbool b => b
  | .jnum n => n != 0
  | .jstr s => s != ""
  | .jarr .anil => false
  | .jarr (.acons _ _) => true
  | .jobj .onil => false
  | .jobj (.ocons _ _ _) => true

/-- Python type name of a parsed-JSON value, used in `AttributeError`
details. -/
def pyTypeName : JVal → String
  | .jnull => "NoneType"
  | .jbool _ => "bool"
  | .jnum _ => "int"
  | .jstr _ => "str"
  | .jarr _ => "list"
  | .jobj _ => "dict"

/-- Whitespace as Python `str.strip()` removes it (space, tab, newline,
carriage return, vertical tab, form feed; the Unicode extras Python also
strips are not modelled). -/
def isPyWs (c : Char) : Bool :=
  c = ' ' || c = '\t' || c = '\n' || c = '\r'
    || c = Char.ofNat 11 || c = Char.ofNat 12

/-- Python `str.strip()`: drop leading and trailing whitespace. -/
def pyStrip (s : String) : String :=
  String.mk (((s.data.dropWhile isPyWs).reverse.dropWhile isPyWs).reverse)

def asciiLowerChar (c : Char) : Char :=
  if 65 ≤ c.toNat ∧ c.toNat ≤ 90 then Char.ofNat (c.toNat + 32) else c

/-- Python `str.lower()` (the statuses involved are ASCII). -/
def pyLower (s : String) : String := String.mk (s.data.map asciiLowerChar)

/-- Python slicing `s[:n]` (by code points, as Python counts). -/
def pyTake (s : String) (n : Nat) : String := String.mk (s.data.take n)

/-- Python `len(s)` (code points). -/
def pyLen (s : String) : Nat := s.data.length

/-! ## `json.dumps(obj, ensure_ascii=False, indent=2)` -/

def spaces (n : Nat) : String := String.mk (List.replicate n ' ')

def hexDigit (n : Nat) : Char :=
  if n < 10 then Char.ofNat (48 + n) else Char.ofNat (87 + n)

def hex4 (n : Nat) : String :=
  String.mk [hexDigit (n / 4096 % 16), hexDigit (n / 256 % 16),
             hexDigit (n / 16 % 16), hexDigit (n % 16)]

/-- JSON string escaping as `json.dumps` does with `ensure_ascii=False`:
quote, backslash and control characters are escaped, everything else is
emitted verbatim. -/
def escChar (c : Char) : String :=
  if c = '"' then "\\\""
  else if c = '\\' then "\\\\"
  else if c = '\n' then "\\n"
  else if c = '\t' then "\\t"
  else if c = '\r' then "\\r"
  else if c = Char.ofNat 8 then "\\b"
  else if c = Char.ofNat 12 then "\\f"
  else if c.toNat < 32 then "\\u" ++ hex4 c.toNat
  else String.singleton c

def quoteStr (s : String) : String :=
  "\"" ++ String.join (s.data.map escChar) ++ "\""

def jarrSep : JArr → String
  | .anil => ""
  | .acons _ _ => ",\n"

def jobjSep : JObj → String
  | .onil => ""
  | .ocons _ _ _ => ",\n"

def jarrIsEmpty : JArr → Bool
  | .anil => true
  | .acons _ _ => false

def jobjIsEmpty : JObj → Bool
  | .onil => true
  | .ocons _ _ _ => false

mutual
/-- `json.dumps(v, ensure_ascii=False, indent=2)` at nesting level `lvl`
(indent 2, separators `","`/`": "`, items one per line). -/
def dumpVal (lvl : Nat) : JVal → String
  | .jnull => "null"
  | .jbool b => cond b "true" "false"
  | .jnum n => toString n
  | .jstr s => quoteStr s
  | .jarr a => cond (jarrIsEmpty a) "[]"
      ("[\n" ++ dumpArrBody (lvl+1) a ++ "\n" ++ spaces (2*lvl) ++ "]")
  | .jobj o => cond (jobjIsEmpty o) "\x7b\x7d"
      ("\x7b\n" ++ dumpObjBody (lvl+1) o ++ "\n" ++ spaces (2*lvl) ++ "\x7d")

def dumpArrBody (lvl : Nat) : JArr → String
  | .anil => ""
  | .acons x t =>
      spaces (2*lvl) ++ dumpVal lvl x ++ jarrSep t ++ dumpArrBody lvl t

def dumpObjBody (lvl : Nat) : JObj → String
  | .onil => ""
  | .ocons k v t =>
      spaces (2*lvl) ++ quoteStr k ++ ": " ++ dumpVal lvl v ++ jobjSep t
        ++ dumpObjBody lvl t
end

def jsonDumps (v : JVal) : String := dumpVal 0 v

/-- `_json_compact` (src/bot.py lines 91-96).  For values of JSON shape
`json.dumps` always succeeds, so the `except` fallback to `str(obj)` is
unreachable here. -/
def _json_compact (v : JVal) (limit : Nat) : String :=
  let s := jsonDumps v
  if pyLen s ≤ limit then s else pyTake s limit ++ " …"

/-! ## The result extractor (src/bot.py lines 122-140) -/

def candidateKeys : List String := ["result", "final", "text", "message", "output"]

/-- The `for k in ("result", "final", "text", "message", "output")` loop:
return the first candidate whose value is a string with non-empty strip. -/
def scanCandidates (fr : JObj) : List String → Option String
  | [] => none
  | k :: ks =>
    match fr.get k with
    | .jstr v => if pyStrip v ≠ "" then some (pyStrip v) else scanCandidates fr ks
    | _ => scanCandidates fr ks

/-- `_extract_final_text_from_payload` (src/bot.py lines 122-140). -/
def _extract_final_text_from_payload (payload : JObj) : Option String :=
  match payload.get "final_result" with
  | .jnull => none
  | .jstr s => if pyStrip s = "" then none else some (pyStrip s)
  | .jobj fr =>
    (match scanCandidates fr candidateKeys with
     | some t => some t
     | none => some (_json_compact (.jobj fr) 2000))
  | _ => none

/-! ## HTTP layer and exceptions -/

/-- The exceptions `handle_default_route`'s handlers distinguish:
`requests.exceptions.Timeout`, any other
`requests.exceptions.RequestException` (with its rendered detail), and
any other exception. -/
inductive PyExc : Type where
  | timeout : PyExc
  | requestErr : String → PyExc
  | other : String → PyExc
  deriving DecidableEq

/-- A `requests.Response` as the client observes it: status code, body
text, and the JSON parse of the body (`none` when the body is not valid
JSON, in which case `.json()` raises). -/
structure HttpResponse : Type where
  status_code : Nat
  text : String
  jsonBody : Option JVal
  deriving DecidableEq

/-- The backend as an oracle: the outcome of the submission POST (as a
function of the request body), of the i-th status poll of the run's
single execution id, and of the result fetch. -/
structure Backend : Type where
  submit : JVal → Except PyExc HttpResponse
  statusResp : Nat → Except PyExc HttpResponse
  resultResp : Except PyExc HttpResponse

/-- Detail of the `requests.exceptions.HTTPError` raised by
`Response.raise_for_status` (modelled: the rendered message names the
status code and the client/server class; `requests` internals are not in
src/). -/
def httpErrorDetail (code : Nat) : String :=
  toString code ++ (if code < 500 then " Client Error" else " Server Error")

/-- Detail of the `requests.exceptions.JSONDecodeError` raised by
`Response.json()` on an unparseable body (modelled; a
`RequestException` in the installed `requests`). -/
def jsonDecodeDetail : String := "Expecting value"

/-- `AttributeError` detail for `x.get` / `x.lower` on a value of the
wrong type (modelled without the quote marks Python prints). -/
def noAttrMsg (v : JVal) (attr : String) : String :=
  pyTypeName v ++ " object has no attribute " ++ attr

/-- `Response.raise_for_status` (requests): raises `HTTPError` exactly
for status codes in [400, 600). -/
def raise_for_status (r : HttpResponse) : Except PyExc Unit :=
  if 400 ≤ r.status_code ∧ r.status_code < 600 then
    .error (.requestErr (httpErrorDetail r.status_code))
  else .ok ()

/-- `Response.json()`: the parsed value, or a raised decode error. -/
def responseJson (r : HttpResponse) : Except PyExc JVal :=
  match r.jsonBody with
  | some v => .ok v
  | none => .error (.requestErr jsonDecodeDetail)

/-- `_get_status` (src/bot.py lines 108-113): GET the status endpoint,
`raise_for_status`, parse JSON.  `i` is the index of this poll within
the run. -/
def _get_status (B : Backend) (i : Nat) : Except PyExc JVal :=
  match B.statusResp i with
  | .error e => .error e
  | .ok r =>
    match raise_for_status r with
    | .error e => .error e
    | .ok _ => responseJson r

/-- `_get_result` (src/bot.py lines 115-120). -/
def _get_result (B : Backend) : Except PyExc JVal :=
  match B.resultResp with
  | .error e => .error e
  | .ok r =>
    match raise_for_status r with
    | .error e => .error e
    | .ok _ => responseJson r

/-! ## `handle_default_route` (src/bot.py lines 142-206) -/

/-- The fixed UX strings the route uses (src/bot.py lines 59-62). -/
def UXtimeoutMsg : String := "⚠️ Backend timed out. Try again shortly."

def UXnetworkErrMsg : String := "❌ Network error. Backend unreachable."

def backendErrMsg (code : Nat) (body : String) : String :=
  "❌ Backend error " ++ toString code ++ ":\n" ++ body

def successNoTextMsg (body : String) : String :=
  "✅ Success, but no simple text field found:\n" ++ body

/-- The three `except` handlers at src/bot.py lines 200-206, mapping a
raised exception to the display string returned to the caller. -/
def excMsg : PyExc → String
  | .timeout => UXtimeoutMsg
  | .requestErr d => UXnetworkErrMsg ++ "\n\nDetails: " ++ d
  | .other m => "❌ Unexpected error: " ++ m

/-- The timeout return at src/bot.py line 188; `s` is the lowered status
of the current (final) poll, with `status or 'unknown'`. -/
def pollTimeoutMsg (s : String) : String :=
  "⚠️ Backend timed out waiting for result (last status="
    ++ (if s = "" then "unknown" else s) ++ ")."

/-- The configuration the route reads from `RUNTIME` (defaults
`poll_interval = 1.0`, `max_wait = 120.0`; both keys are always present
so the `RUNTIME.get` fallbacks never apply). -/
structure Config : Type where
  poll_interval : Int
  max_wait : Int
  deriving DecidableEq

def defaultConfig : Config := ⟨1, 120⟩

/-- The request body built at src/bot.py lines 149-154. -/
def requestBody (prompt : String) (user_id : Int) : JVal :=
  .jobj (.ocons "goal" (.jstr prompt)
        (.ocons "user_id" (.jnum user_id)
        (.ocons "max_depth" (.jnum 1)
        (.ocons "config_overrides"
          (.jobj (.ocons "observability"
                 (.jobj (.ocons "mlflow"
                        (.jobj (.ocons "enabled" (.jbool false) .onil))
                        .onil))
                 .onil))
          .onil))))

/-- `status = (status_payload.get("status") or "").lower()`
(src/bot.py line 180); raises `AttributeError` when the payload is not a
dict or the status value is truthy but not a string. -/
def statusLowerE : JVal → Except PyExc String
  | .jobj fs =>
    let v := fs.get "status"
    if pyTruthy v then
      match v with
      | .jstr s => .ok (pyLower s)
      | w => .error (.other (noAttrMsg w "lower"))
    else .ok ""
  | w => .error (.other (noAttrMsg w "get"))

/-- The terminal-status set of src/bot.py line 175. -/
def terminalStatuses : List String :=
  ["completed", "failed", "timeout", "timed_out", "cancelled"]

/-- How the poll loop (src/bot.py lines 178-190) exited. -/
inductive LoopRes : Type where
  | exc : PyExc → LoopRes
  | timedOut : String → LoopRes
  | terminal : String → LoopRes
  deriving DecidableEq

/-- The `while True` poll loop, with fuel.  Returns the number of status
polls performed together with how the loop exited (`none` = fuel ran
out first).  Iteration `i` polls, checks for a terminal status, then
checks `time.monotonic() - t0 > max_wait` using reading `clock (i+1)`
against `t0 = clock 0`, and otherwise sleeps `poll_interval`. -/
def pollLoop (B : Backend) (C : Config) (clock : Nat → Int) :
    Nat → Nat → Option (Nat × LoopRes)
  | 0, _ => none
  | fuel+1, i =>
    match _get_status B i with
    | .error e => some (i+1, .exc e)
    | .ok payload =>
      match statusLowerE payload with
      | .error e => some (i+1, .exc e)
      | .ok status =>
        if status ∈ terminalStatuses then some (i+1, .terminal status)
        else if C.max_wait < clock (i+1) - clock 0 then
          some (i+1, .timedOut status)
        else pollLoop B C clock fuel (i+1)

/-- What a run of `handle_default_route` produced: the display string
returned to the caller, the number of status polls performed, and
whether the result fetch was issued. -/
structure RunOut : Type where
  reply : String
  polls : Nat
  fetched : Bool
  deriving DecidableEq

/-- Python truthiness of the extractor's `Optional[str]` result
(`if text:`). -/
def pyOptTruthy : Option String → Bool
  | some t => t != ""
  | none => false

/-- `handle_default_route` (src/bot.py lines 142-206).  `none` = the
fuel bound on the poll loop was hit before the function returned. -/
def handle_default_route (B : Backend) (C : Config) (clock : Nat → Int)
    (fuel : Nat) (prompt : String) (user_id : Int) : Option RunOut :=
  match B.submit (requestBody prompt user_id) with
  | .error e => some ⟨excMsg e, 0, false⟩
  | .ok resp =>
    if ¬ (200 ≤ resp.status_code ∧ resp.status_code < 300) then
      some ⟨backendErrMsg resp.status_code (pyTake resp.text 2000), 0, false⟩
    else
      match resp.jsonBody.getD (.jobj .onil) with
      | .jobj fs =>
        if pyTruthy (fs.get "execution_id") then
          match pollLoop B C clock fuel 0 with
          | none => none
          | some (n, .exc e) => some ⟨excMsg e, n, false⟩
          | some (n, .timedOut s) => some ⟨pollTimeoutMsg s, n, false⟩
          | some (n, .terminal _) =>
            match _get_result B with
            | .error e => some ⟨excMsg e, n, true⟩
            | .ok (.jobj rfs) =>
              let text := _extract_final_text_from_payload rfs
              if pyOptTruthy text then some ⟨text.getD "", n, true⟩
              else
                some ⟨successNoTextMsg (_json_compact
                  (.jobj (.ocons "status" (rfs.get "status")
                         (.ocons "final_result" (rfs.get "final_result") .onil)))
                  2000), n, true⟩
            | .ok w => some ⟨excMsg (.other (noAttrMsg w "get")), n, true⟩
        else
          some ⟨successNoTextMsg ("(no execution_id)\n"
            ++ _json_compact (resp.jsonBody.getD (.jobj .onil)) 2000), 0, false⟩
      | w => some ⟨excMsg (.other (noAttrMsg w "get")), 0, false⟩

/-! ## Specification-side definitions and instrumentation -/

/-- The extractor as the specification words it: `final_result` absent or
null gives null; a string gives its trim (null when empty after trim); a
mapping gives the first of the candidate fields, in order, whose value is
a non-empty-after-trim string, trimmed, falling back to the compact JSON
rendering capped at 2000 characters with an ellipsis marker; any other
shape gives null. -/
def extractSpec (payload : JObj) : Option String :=
  match payload.get "final_result" with
  | .jnull => none
  | .jstr s => if pyStrip s = "" then none else some (pyStrip s)
  | .jobj fr =>
    some (match (candidateKeys.filterMap fun k =>
        match fr.get k with
        | .jstr v => if pyStrip v = "" then none else some (pyStrip v)
        | _ => none).head? with
      | some t => t
      | none =>
        let s := jsonDumps (.jobj fr)
        if pyLen s ≤ 2000 then s else pyTake s 2000 ++ " …")
  | .jbool _ => none
  | .jnum _ => none
  | .jarr _ => none

/-- Instrumented extractor: alongside the result it returns the payload
dictionary as the call leaves it.  Every step of the source
(`dict.get`, `isinstance`, `str.strip`, `json.dumps`) only reads its
arguments, so the instrumentation returns the input payload on every
path. -/
def extractTraced (payload : JObj) : Option String × JObj :=
  match payload.get "final_result" with
  | .jnull => (none, payload)
  | .jstr s => ((if pyStrip s = "" then none else some (pyStrip s)), payload)
  | .jobj fr =>
    ((match scanCandidates fr candidateKeys with
      | some t => some t
      | none => some (_json_compact (.jobj fr) 2000)), payload)
  | _ => (none, payload)

theorem scanCandidates_eq_head (fr : JObj) (ks : List String) :
    scanCandidates fr ks = (ks.filterMap fun k =>
      match fr.get k with
      | .jstr v => if pyStrip v = "" then none else some (pyStrip v)
      | _ => none).head? := by
  induction ks with
  | nil => rfl
  | cons k ks ih =>
    simp only [scanCandidates, List.filterMap_cons]
    cases h : fr.get k with
    | jstr v =>
      by_cases hv : pyStrip v = ""
      · simp [hv, ih]
      · simp [hv]
    | jnull => simp [ih]
    | jbool b => simp [ih]
    | jnum n => simp [ih]
    | jarr a => simp [ih]
    | jobj o => simp [ih]

theorem option_match_some (o : Option String) (d : String) :
    (match o with | some t => some t | none => some d)
      = some (match o with | some t => t | none => d) := by
  cases o <;> rfl

/-- C1: for every result payload the extractor returns null when
`final_result` is absent or null (the model collapses the two, as
`dict.get` does); the trimmed string when it is a string, null if empty
after trimming; for a mapping, the first of `result`, `final`, `text`,
`message`, `output` (in that order) whose value is a
non-empty-after-trim string, trimmed, else the compact JSON rendering of
the mapping capped at 2000 characters with an ellipsis marker; and null
for any other shape. -/
theorem extractor_meets_spec (payload : JObj) :
    _extract_final_text_from_payload payload = extractSpec payload := by
  unfold _extract_final_text_from_payload extractSpec
  cases h : payload.get "final_result" with
  | jobj fr =>
    dsimp only
    rw [scanCandidates_eq_head, option_match_some]
    simp [_json_compact]
  | jnull => rfl
  | jbool b => rfl
  | jnum n => rfl
  | jstr s => rfl
  | jarr a => rfl

/-- C8: the extractor is pure and deterministic.  The instrumented
embedding, which returns the payload as the call leaves it, returns it
unchanged and agrees with the extractor, so a second extraction on the
payload left behind by a first call returns the identical output. -/
theorem extractor_pure_deterministic (payload : JObj) :
    extractTraced payload = (_extract_final_text_from_payload payload, payload) ∧
    _extract_final_text_from_payload (extractTraced payload).2
      = _extract_final_text_from_payload payload := by
  have h1 : extractTraced payload = (_extract_final_text_from_payload payload, payload) := by
    unfold extractTraced _extract_final_text_from_payload
    cases h : payload.get "final_result" <;> rfl
  exact ⟨h1, by rw [h1]⟩

/-! ## Poll-loop run lemmas -/

/-- The lowered status the loop computes at poll `i`, or the exception
that poll raises. -/
def obsStatus (B : Backend) (i : Nat) : Except PyExc String :=
  match _get_status B i with
  | .error e => .error e
  | .ok p => statusLowerE p

/-- Anatomy of an exiting run of the poll loop started at iteration `j`:
the exit happens at poll `n-1` (so `n` polls were made); every earlier
poll observed a non-terminal status and passed the budget check; and the
exit kind determines what poll `n-1` observed. -/
theorem pollLoop_run (B : Backend) (C : Config) (clock : Nat → Int) :
    ∀ (fuel j n : Nat) (res : LoopRes),
      pollLoop B C clock fuel j = some (n, res) →
      j < n ∧
      (∀ i, j ≤ i → i + 1 < n → ∃ s, obsStatus B i = .ok s ∧
          s ∉ terminalStatuses ∧ clock (i+1) - clock 0 ≤ C.max_wait) ∧
      (∀ e, res = .exc e → obsStatus B (n-1) = .error e) ∧
      (∀ s, res = .terminal s → obsStatus B (n-1) = .ok s ∧
          s ∈ terminalStatuses) ∧
      (∀ s, res = .timedOut s → obsStatus B (n-1) = .ok s ∧
          s ∉ terminalStatuses ∧ C.max_wait < clock n - clock 0) := by
  intro fuel
  induction fuel with
  | zero => intro j n res h; simp [pollLoop] at h
  | succ fuel ih =>
    intro j n res h
    simp only [pollLoop] at h
    cases hg : _get_status B j with
    | error e =>
      rw [hg] at h; dsimp only at h
      simp only [Option.some.injEq, Prod.mk.injEq] at h
      obtain ⟨rfl, rfl⟩ := h
      refine ⟨by omega, ?_, ?_, ?_, ?_⟩
      · intro i hji hi1; exact absurd hi1 (by omega)
      · intro e' he'
        cases he'
        simp [obsStatus, hg]
      · intro s hs; cases hs
      · intro s hs; cases hs
    | ok payload =>
      rw [hg] at h; dsimp only at h
      cases hs : statusLowerE payload with
      | error e =>
        rw [hs] at h; dsimp only at h
        simp only [Option.some.injEq, Prod.mk.injEq] at h
        obtain ⟨rfl, rfl⟩ := h
        refine ⟨by omega, ?_, ?_, ?_, ?_⟩
        · intro i hji hi1; exact absurd hi1 (by omega)
        · intro e' he'
          cases he'
          simp [obsStatus, hg, hs]
        · intro s hs'; cases hs'
        · intro s hs'; cases hs'
      | ok status =>
        rw [hs] at h; dsimp only at h
        by_cases ht : status ∈ terminalStatuses
        · rw [if_pos ht] at h
          simp only [Option.some.injEq, Prod.mk.injEq] at h
          obtain ⟨rfl, rfl⟩ := h
          refine ⟨by omega, ?_, ?_, ?_, ?_⟩
          · intro i hji hi1; exact absurd hi1 (by omega)
          · intro e he; cases he
          · intro s hs'
            cases hs'
            exact ⟨by simp [obsStatus, hg, hs], ht⟩
          · intro s hs'; cases hs'
        · rw [if_neg ht] at h
          by_cases hc : C.max_wait < clock (j+1) - clock 0
          · rw [if_pos hc] at h
            simp only [Option.some.injEq, Prod.mk.injEq] at h
            obtain ⟨rfl, rfl⟩ := h
            refine ⟨by omega, ?_, ?_, ?_, ?_⟩
            · intro i hji hi1; exact absurd hi1 (by omega)
            · intro e he; cases he
            · intro s hs'; cases hs'
            · intro s hs'
              cases hs'
              exact ⟨by simp [obsStatus, hg, hs], ht, by simpa using hc⟩
          · rw [if_neg hc] at h
            obtain ⟨h1, h2, h3, h4, h5⟩ := ih (j+1) n res h
            refine ⟨by omega, ?_, h3, h4, h5⟩
            intro i hji hi1
            rcases Nat.eq_or_lt_of_le hji with rfl | hlt
            · exact ⟨status, by simp [obsStatus, hg, hs], ht, by omega⟩
            · exact h2 i (by omega) hi1

/-- If the loop ran out of fuel, every iteration it performed passed the
budget check. -/
theorem pollLoop_fuel_out (B : Backend) (C : Config) (clock : Nat → Int) :
    ∀ (fuel j : Nat), pollLoop B C clock fuel j = none →
      ∀ i, j ≤ i → i < j + fuel → clock (i+1) - clock 0 ≤ C.max_wait := by
  intro fuel
  induction fuel with
  | zero => intro j _ i hji hi; omega
  | succ fuel ih =>
    intro j h i hji hi
    simp only [pollLoop] at h
    cases hg : _get_status B j with
    | error e => rw [hg] at h; dsimp only at h; cases h
    | ok payload =>
      rw [hg] at h; dsimp only at h
      cases hs : statusLowerE payload with
      | error e => rw [hs] at h; dsimp only at h; cases h
      | ok status =>
        rw [hs] at h; dsimp only at h
        by_cases ht : status ∈ terminalStatuses
        · rw [if_pos ht] at h; cases h
        · rw [if_neg ht] at h
          by_cases hc : C.max_wait < clock (j+1) - clock 0
          · rw [if_pos hc] at h; cases h
          · rw [if_neg hc] at h
            rcases Nat.eq_or_lt_of_le hji with rfl | hlt
            · omega
            · exact ih (j+1) h i (by omega) (by omega)

/-- Under the clock model (no time passes before the first check; at
least one polling interval passes between consecutive checks, the sleep),
reading `i+1` is at least `i` intervals past `t0`. -/
theorem clock_chain {clock : Nat → Int} {p : Int}
    (h0 : clock 0 ≤ clock 1)
    (hstep : ∀ k, 1 ≤ k → clock k + p ≤ clock (k+1)) :
    ∀ i : Nat, clock 0 + (i : Int) * p ≤ clock (i+1) := by
  intro i
  induction i with
  | zero => simpa using h0
  | succ i ih =>
    have h := hstep (i+1) (by omega)
    have hc : ((i+1 : Nat) : Int) * p = (i : Int) * p + p := by push_cast; ring
    rw [hc]
    linarith

/-! ## Route-unfolding helpers and string facts -/

theorem str_data_append (s t : String) : (s ++ t).data = s.data ++ t.data := rfl

theorem str_append_assoc (a b c : String) : (a ++ b) ++ c = a ++ (b ++ c) := by
  cases a with | mk la =>
  cases b with | mk lb =>
  cases c with | mk lc =>
  show String.mk ((la ++ lb) ++ lc) = String.mk (la ++ (lb ++ lc))
  rw [List.append_assoc]

theorem append_ne_append_of_clash (p q x y : List Char)
    (hpq : ¬ p <+: q) (hqp : ¬ q <+: p) : p ++ x ≠ q ++ y := by
  intro h
  have h1 : p <+: p ++ x := List.prefix_append p x
  have h2 : q <+: p ++ x := by rw [h]; exact List.prefix_append q y
  rcases List.prefix_or_prefix_of_prefix h1 h2 with hc | hc
  · exact hpq hc
  · exact hqp hc

theorem string_ne_of_clash (a b x y : String)
    (hab : ¬ a.data <+: b.data) (hba : ¬ b.data <+: a.data) :
    a ++ x ≠ b ++ y := by
  intro h
  exact append_ne_append_of_clash a.data b.data x.data y.data hab hba
    (by rw [← str_data_append, ← str_data_append, h])

/-- Submission raising an exception short-circuits the route into the
corresponding handler message. -/
theorem route_submit_err (B : Backend) (C : Config) (clock : Nat → Int)
    (fuel : Nat) (prompt : String) (uid : Int) (e : PyExc)
    (hs : B.submit (requestBody prompt uid) = .error e) :
    handle_default_route B C clock fuel prompt uid = some ⟨excMsg e, 0, false⟩ := by
  unfold handle_default_route
  rw [hs]

/-- A non-2xx submission response short-circuits the route into the
backend-error diagnostic. -/
theorem route_non2xx (B : Backend) (C : Config) (clock : Nat → Int)
    (fuel : Nat) (prompt : String) (uid : Int) (r : HttpResponse)
    (hs : B.submit (requestBody prompt uid) = .ok r)
    (h2 : ¬ (200 ≤ r.status_code ∧ r.status_code < 300)) :
    handle_default_route B C clock fuel prompt uid
      = some ⟨backendErrMsg r.status_code (pyTake r.text 2000), 0, false⟩ := by
  unfold handle_default_route
  rw [hs]
  dsimp only
  rw [if_pos h2]

/-- A 2xx submission whose parsed body is an object with a truthy
`execution_id` makes the route's outcome a function of the poll loop's
exit (and, on a terminal exit, of the result fetch). -/
theorem route_reach_loop (B : Backend) (C : Config) (clock : Nat → Int)
    (fuel : Nat) (prompt : String) (uid : Int) (r : HttpResponse) (fs : JObj)
    (hs : B.submit (requestBody prompt uid) = .ok r)
    (h2 : 200 ≤ r.status_code ∧ r.status_code < 300)
    (hj : r.jsonBody.getD (.jobj .onil) = .jobj fs)
    (he : pyTruthy (fs.get "execution_id") = true) :
    handle_default_route B C clock fuel prompt uid =
      match pollLoop B C clock fuel 0 with
      | none => none
      | some (n, .exc e) => some ⟨excMsg e, n, false⟩
      | some (n, .timedOut s) => some ⟨pollTimeoutMsg s, n, false⟩
      | some (n, .terminal _) =>
        match _get_result B with
        | .error e => some ⟨excMsg e, n, true⟩
        | .ok (.jobj rfs) =>
          let text := _extract_final_text_from_payload rfs
          if pyOptTruthy text then some ⟨text.getD "", n, true⟩
          else
            some ⟨successNoTextMsg (_json_compact
              (.jobj (.ocons "status" (rfs.get "status")
                     (.ocons "final_result" (rfs.get "final_result") .onil)))
              2000), n, true⟩
        | .ok w => some ⟨excMsg (.other (noAttrMsg w "get")), n, true⟩ := by
  unfold handle_default_route
  rw [hs]
  dsimp only
  rw [if_neg (not_not_intro h2), hj]
  dsimp only
  rw [he, if_pos rfl]

/-! ## Concrete backends for scenarios, counterexamples and witnesses -/

/-- A successful JSON response with the given status code and object
body. -/
def okJson (code : Nat) (o : JObj) : Except PyExc HttpResponse :=
  .ok ⟨code, "", some (.jobj o)⟩

/-- The specification's end-to-end scenario: submission accepted with
execution id `abc`; first poll `running`, second `completed`; result
fetch `{"status":"completed","final_result":"42"}`.  Polls beyond the
second raise, so a successful run certifies they were never issued. -/
def backendC2 : Backend where
  submit := fun _ =>
    .ok ⟨202, "", some (.jobj (.ocons "execution_id" (.jstr "abc") .onil))⟩
  statusResp := fun i =>
    if i = 0 then okJson 200 (.ocons "status" (.jstr "running") .onil)
    else if i = 1 then okJson 200 (.ocons "status" (.jstr "completed") .onil)
    else .error (.other "extra poll")
  resultResp := okJson 200 (.ocons "status" (.jstr "completed")
                           (.ocons "final_result" (.jstr "42") .onil))

/-- A backend whose submission returns 404 with body `nope`. -/
def backend404 : Backend where
  submit := fun _ => .ok ⟨404, "nope", none⟩
  statusResp := fun _ => .error (.other "unused")
  resultResp := .error (.other "unused")

/-- A backend whose submission returns 200 with the non-JSON body
`RAWBODY`. -/
def backendRawBody : Backend where
  submit := fun _ => .ok ⟨200, "RAWBODY", none⟩
  statusResp := fun _ => .error (.other "unused")
  resultResp := .error (.other "unused")

/-- A backend whose submission returns 200 with the JSON-array body
`[1]`. -/
def backendArrayBody : Backend where
  submit := fun _ => .ok ⟨200, "[1]", some (.jarr (.acons (.jnum 1) .anil))⟩
  statusResp := fun _ => .error (.other "unused")
  resultResp := .error (.other "unused")

/-- A backend whose submission returns 200 with object body
`{"foo": 1}` and no execution id. -/
def backendNoId : Backend where
  submit := fun _ => .ok ⟨200, "", some (.jobj (.ocons "foo" (.jnum 1) .onil))⟩
  statusResp := fun _ => .error (.other "unused")
  resultResp := .error (.other "unused")

/-! ## C2 -/

/-- C2: in the concrete scenario (submission 202 with execution id
`abc`; status polls `running` then `completed`; result fetch
`{"status":"completed","final_result":"42"}`, one time unit per poll
iteration, default configuration) the route returns exactly the string
`42`, having performed exactly 2 status polls, and fetches the result. -/
theorem scenario_returns_42 :
    handle_default_route backendC2 defaultConfig (fun k => (k : Int)) 10 "hi" 7
      = some ⟨"42", 2, true⟩ := by decide

/-! ## C3 -/

/-- C3: every non-2xx submission response makes the route return the
backend-error diagnostic: a string containing the exact status code and
a prefix of the response body of length at most 2000, with no status
poll and no result fetch performed. -/
theorem non2xx_submission_diagnostic (B : Backend) (C : Config)
    (clock : Nat → Int) (fuel : Nat) (prompt : String) (uid : Int)
    (r : HttpResponse)
    (hs : B.submit (requestBody prompt uid) = .ok r)
    (h2 : ¬ (200 ≤ r.status_code ∧ r.status_code < 300)) :
    ∃ out, handle_default_route B C clock fuel prompt uid = some out ∧
      out.reply = backendErrMsg r.status_code (pyTake r.text 2000) ∧
      (∃ pre post, out.reply = pre ++ toString r.status_code ++ post) ∧
      (pyTake r.text 2000).data <+: r.text.data ∧
      pyLen (pyTake r.text 2000) ≤ 2000 ∧
      out.polls = 0 ∧ out.fetched = false := by
  refine ⟨_, route_non2xx B C clock fuel prompt uid r hs h2, rfl, ?_, ?_, ?_, rfl, rfl⟩
  · refine ⟨"❌ Backend error ", ":\n" ++ pyTake r.text 2000, ?_⟩
    show backendErrMsg r.status_code (pyTake r.text 2000) = _
    unfold backendErrMsg
    rw [str_append_assoc]
  · exact List.take_prefix 2000 r.text.data
  · simp [pyLen, pyTake, List.length_take]

theorem non2xx_submission_diagnostic_witness :
    ∃ out, handle_default_route backend404 defaultConfig (fun k => (k : Int))
        5 "p" 1 = some out ∧
      out.reply = backendErrMsg 404 (pyTake "nope" 2000) ∧
      (∃ pre post, out.reply = pre ++ toString 404 ++ post) ∧
      (pyTake "nope" 2000).data <+: ("nope" : String).data ∧
      pyLen (pyTake "nope" 2000) ≤ 2000 ∧
      out.polls = 0 ∧ out.fetched = false :=
  non2xx_submission_diagnostic backend404 defaultConfig (fun k => (k : Int))
    5 "p" 1 ⟨404, "nope", none⟩ rfl (by decide)

/-! ## C4 -/

/-- C4 is refuted as stated.  First: a 2xx submission whose body is the
non-JSON text `RAWBODY` lacks an execution id, and the route returns the
success-but-unusable message rendering the (empty) parsed object — the
raw response body `RAWBODY` does not occur in the reply.  Second: a 2xx
submission whose body parses to the JSON array `[1]` also lacks an
execution id, but the route returns the generic unexpected-error message
(the `AttributeError` of `list.get`), not the success-but-unusable
result. -/
theorem success_no_id_counterexample :
    (handle_default_route backendRawBody defaultConfig (fun k => (k : Int)) 5 "p" 1
      = some ⟨successNoTextMsg "(no execution_id)\n\x7b\x7d", 0, false⟩) ∧
    ¬ (("RAWBODY" : String).data <:+:
        (successNoTextMsg "(no execution_id)\n\x7b\x7d").data) ∧
    (handle_default_route backendArrayBody defaultConfig (fun k => (k : Int)) 5 "p" 1
      = some ⟨excMsg (.other (noAttrMsg (.jarr (.acons (.jnum 1) .anil)) "get")),
              0, false⟩) :=
  ⟨by decide, by decide, by decide⟩

/-- C4 (amended): for every 2xx submission response whose parsed JSON
body is an object lacking a truthy `execution_id` — or whose body fails
to parse, in which case the parsed body is taken to be the empty object
— the route returns the distinct success-but-unusable message carrying
`(no execution_id)` and a compact JSON rendering of that parsed object,
with no poll and no fetch; a 2xx body parsing to a non-object instead
yields the generic unexpected-error message (shown by the
counterexample). -/
theorem success_no_id_message (B : Backend) (C : Config)
    (clock : Nat → Int) (fuel : Nat) (prompt : String) (uid : Int)
    (r : HttpResponse) (fs : JObj)
    (hs : B.submit (requestBody prompt uid) = .ok r)
    (h2 : 200 ≤ r.status_code ∧ r.status_code < 300)
    (hj : r.jsonBody.getD (.jobj .onil) = .jobj fs)
    (he : pyTruthy (fs.get "execution_id") = false) :
    handle_default_route B C clock fuel prompt uid
      = some ⟨successNoTextMsg ("(no execution_id)\n"
          ++ _json_compact (.jobj fs) 2000), 0, false⟩ := by
  unfold handle_default_route
  rw [hs]
  dsimp only
  rw [if_neg (not_not_intro h2), hj]
  dsimp only
  rw [he, if_neg (by simp)]

theorem success_no_id_message_witness :
    handle_default_route backendNoId defaultConfig (fun k => (k : Int)) 5 "p" 1
      = some ⟨successNoTextMsg ("(no execution_id)\n"
          ++ _json_compact (.jobj (.ocons "foo" (.jnum 1) .onil)) 2000),
          0, false⟩ :=
  success_no_id_message backendNoId defaultConfig (fun k => (k : Int)) 5 "p" 1
    ⟨200, "", some (.jobj (.ocons "foo" (.jnum 1) .onil))⟩
    (.ocons "foo" (.jnum 1) .onil) rfl (by decide) rfl (by decide)

/-! ## C5 -/

/-- Submission accepted; poll 0 observes `running`, poll 1 gets an empty
object (no status field, so the empty status); with 100 time units
between clock readings the budget check of poll 1 fails. -/
def backendC5 : Backend where
  submit := fun _ =>
    .ok ⟨202, "", some (.jobj (.ocons "execution_id" (.jstr "abc") .onil))⟩
  statusResp := fun i =>
    if i = 0 then okJson 200 (.ocons "status" (.jstr "running") .onil)
    else okJson 200 .onil
  resultResp := .error (.other "unused")

/-- C5 is refuted as stated: in the `backendC5` run the budget is
exceeded before a terminal status, a non-empty status (`running`) was
observed at poll 0, yet the final poll observed the empty status, so the
timeout message says `unknown` and does not name `running` — the
message is built from the final poll's status, not from the last
non-empty one observed. -/
theorem poll_timeout_unknown_counterexample :
    (handle_default_route backendC5 defaultConfig (fun k => 100 * (k : Int)) 10 "p" 1
      = some ⟨"⚠️ Backend timed out waiting for result (last status=unknown).",
              2, false⟩) ∧
    obsStatus backendC5 0 = .ok "running" ∧
    ("running" : String) ≠ "" ∧
    ¬ (("running" : String).data <:+:
        ("⚠️ Backend timed out waiting for result (last status=unknown)." : String).data) :=
  ⟨by decide, rfl, by decide, by decide⟩

/-- C5 (amended): if the elapsed monotonic time measured from submission
exceeds the wall-clock budget before a terminal status is observed, the
route returns a timeout message that names the status observed by the
final status poll (the one whose budget check failed), or `unknown` when
that status is empty. -/
theorem poll_timeout_message (B : Backend) (C : Config) (clock : Nat → Int)
    (fuel : Nat) (prompt : String) (uid : Int) (r : HttpResponse) (fs : JObj)
    (n : Nat) (s : String)
    (hs : B.submit (requestBody prompt uid) = .ok r)
    (h2 : 200 ≤ r.status_code ∧ r.status_code < 300)
    (hj : r.jsonBody.getD (.jobj .onil) = .jobj fs)
    (he : pyTruthy (fs.get "execution_id") = true)
    (hp : pollLoop B C clock fuel 0 = some (n, .timedOut s)) :
    handle_default_route B C clock fuel prompt uid
        = some ⟨pollTimeoutMsg s, n, false⟩ ∧
      obsStatus B (n-1) = .ok s ∧
      s ∉ terminalStatuses ∧
      C.max_wait < clock n - clock 0 ∧
      pollTimeoutMsg s = "⚠️ Backend timed out waiting for result (last status="
        ++ (if s = "" then "unknown" else s) ++ ")." := by
  obtain ⟨_, _, _, _, h5⟩ := pollLoop_run B C clock fuel 0 n (.timedOut s) hp
  obtain ⟨ho, hnt, hc⟩ := h5 s rfl
  refine ⟨?_, ho, hnt, hc, rfl⟩
  rw [route_reach_loop B C clock fuel prompt uid r fs hs h2 hj he, hp]

theorem poll_timeout_message_witness :
    (handle_default_route backendC5 defaultConfig (fun k => 100 * (k : Int)) 10 "p" 1
        = some ⟨pollTimeoutMsg "", 2, false⟩) ∧
      obsStatus backendC5 (2-1) = .ok "" ∧
      ("" : String) ∉ terminalStatuses ∧
      defaultConfig.max_wait < 100 * ((2 : Nat) : Int) - 100 * ((0 : Nat) : Int) ∧
      pollTimeoutMsg "" = "⚠️ Backend timed out waiting for result (last status="
        ++ (if ("" : String) = "" then "unknown" else "") ++ ")." :=
  poll_timeout_message backendC5 defaultConfig (fun k => 100 * (k : Int)) 10 "p" 1
    ⟨202, "", some (.jobj (.ocons "execution_id" (.jstr "abc") .onil))⟩
    (.ocons "execution_id" (.jstr "abc") .onil) 2 ""
    rfl (by decide) rfl (by decide) (by decide)

/-! ## C6 -/

/-- C6: when the poll loop exits, it does so through the terminal branch
if and only if one of its polls observed a status that lowercases to one
of exactly `completed`, `failed`, `timeout`, `timed_out`, `cancelled`
(`obsStatus` is the lowered status the loop computes from the poll). -/
theorem terminal_exit_iff (B : Backend) (C : Config) (clock : Nat → Int)
    (fuel n : Nat) (res : LoopRes)
    (h : pollLoop B C clock fuel 0 = some (n, res)) :
    (∃ s, res = .terminal s) ↔
      (∃ i, i < n ∧ ∃ s, obsStatus B i = .ok s ∧
        s ∈ ["completed", "failed", "timeout", "timed_out", "cancelled"]) := by
  obtain ⟨h1, h2, h3, h4, h5⟩ := pollLoop_run B C clock fuel 0 n res h
  constructor
  · rintro ⟨s, rfl⟩
    obtain ⟨ho, ht⟩ := h4 s rfl
    exact ⟨n-1, by omega, s, ho, ht⟩
  · rintro ⟨i, hin, s, ho, hts⟩
    cases res with
    | terminal t => exact ⟨t, rfl⟩
    | exc e =>
      exfalso
      rcases Nat.lt_or_ge (i+1) n with hi | hi
      · obtain ⟨u, ho2, ht2, _⟩ := h2 i (by omega) hi
        rw [ho] at ho2
        cases ho2
        exact ht2 hts
      · have hieq : i = n - 1 := by omega
        subst hieq
        have he := h3 e rfl
        rw [ho] at he
        cases he
    | timedOut t =>
      exfalso
      rcases Nat.lt_or_ge (i+1) n with hi | hi
      · obtain ⟨u, ho2, ht2, _⟩ := h2 i (by omega) hi
        rw [ho] at ho2
        cases ho2
        exact ht2 hts
      · have hieq : i = n - 1 := by omega
        subst hieq
        obtain ⟨ho2, ht2, _⟩ := h5 t rfl
        rw [ho] at ho2
        cases ho2
        exact ht2 hts

theorem terminal_exit_iff_witness :
    (∃ s, (LoopRes.terminal "completed") = LoopRes.terminal s) ↔
      (∃ i, i < 2 ∧ ∃ s, obsStatus backendC2 i = .ok s ∧
        s ∈ ["completed", "failed", "timeout", "timed_out", "cancelled"]) :=
  terminal_exit_iff backendC2 defaultConfig (fun k => (k : Int)) 10 2
    (.terminal "completed") (by decide)

/-! ## C7 -/

/-- If the poll loop cannot run out of fuel, the route always returns a
display string: every branch of the embedded function is `some`. -/
theorem route_isSome (B : Backend) (C : Config) (clock : Nat → Int)
    (fuel : Nat) (prompt : String) (uid : Int)
    (h : pollLoop B C clock fuel 0 ≠ none) :
    handle_default_route B C clock fuel prompt uid ≠ none := by
  unfold handle_default_route
  cases hs : B.submit (requestBody prompt uid) with
  | error e => simp
  | ok r =>
    dsimp only
    by_cases h2 : 200 ≤ r.status_code ∧ r.status_code < 300
    · rw [if_neg (not_not_intro h2)]
      cases hj : r.jsonBody.getD (.jobj .onil) with
      | jobj fs =>
        dsimp only
        by_cases he : pyTruthy (fs.get "execution_id") = true
        · rw [he, if_pos rfl]
          cases hP : pollLoop B C clock fuel 0 with
          | none => exact absurd hP h
          | some pr =>
            obtain ⟨n, res⟩ := pr
            cases res with
            | exc e => simp
            | timedOut s => simp
            | terminal s =>
              dsimp only
              cases hr : _get_result B with
              | error e => simp
              | ok v =>
                cases v with
                | jobj rfs =>
                  dsimp only
                  by_cases htext :
                      pyOptTruthy (_extract_final_text_from_payload rfs) = true
                  · rw [htext, if_pos rfl]; simp
                  · rw [if_neg (by simpa using htext)]; simp
                | jnull => simp
                | jbool b => simp
                | jnum m => simp
                | jstr s2 => simp
                | jarr a => simp
        · rw [if_neg (by simpa using he)]; simp
      | jnull => simp
      | jbool b => simp
      | jnum m => simp
      | jstr s => simp
      | jarr a => simp
    · rw [if_pos h2]; simp

/-- C7: for every backend behaviour the route returns a display string
and never propagates an exception: under the clock model, with any `N`
of polling intervals exceeding the budget (such an `N` exists whenever
the interval is positive) and fuel `N+1`, the route returns `some`
output; a submission-step exception is mapped by the handlers, with a
request-level timeout giving the fixed backend-timed-out message
independent of any body, any other transport failure the
backend-unreachable message including the low-level detail, and any
other exception the generic unexpected-error message. -/
theorem route_total_and_handler_map (B : Backend) (C : Config)
    (clock : Nat → Int) (prompt : String) (uid : Int) (N : Nat)
    (hN : C.max_wait < (N : Int) * C.poll_interval)
    (h0 : clock 0 ≤ clock 1)
    (hstep : ∀ k, 1 ≤ k → clock k + C.poll_interval ≤ clock (k+1)) :
    ∃ out, handle_default_route B C clock (N+1) prompt uid = some out ∧
      (∀ e, B.submit (requestBody prompt uid) = .error e → out.reply = excMsg e) ∧
      (∀ r fs n e, B.submit (requestBody prompt uid) = .ok r →
        (200 ≤ r.status_code ∧ r.status_code < 300) →
        r.jsonBody.getD (.jobj .onil) = .jobj fs →
        pyTruthy (fs.get "execution_id") = true →
        pollLoop B C clock (N+1) 0 = some (n, .exc e) →
        out.reply = excMsg e) ∧
      (∀ r fs n s e, B.submit (requestBody prompt uid) = .ok r →
        (200 ≤ r.status_code ∧ r.status_code < 300) →
        r.jsonBody.getD (.jobj .onil) = .jobj fs →
        pyTruthy (fs.get "execution_id") = true →
        pollLoop B C clock (N+1) 0 = some (n, .terminal s) →
        _get_result B = .error e →
        out.reply = excMsg e) ∧
      excMsg .timeout = "⚠️ Backend timed out. Try again shortly." ∧
      (∀ d, excMsg (.requestErr d)
        = "❌ Network error. Backend unreachable." ++ "\n\nDetails: " ++ d) ∧
      (∀ m, excMsg (.other m) = "❌ Unexpected error: " ++ m) := by
  have hloop : pollLoop B C clock (N+1) 0 ≠ none := by
    intro hnone
    have hck := pollLoop_fuel_out B C clock (N+1) 0 hnone N (by omega) (by omega)
    have hch := clock_chain h0 hstep N
    linarith
  obtain ⟨out, hout⟩ := Option.ne_none_iff_exists'.mp
    (route_isSome B C clock (N+1) prompt uid hloop)
  refine ⟨out, hout, ?_, ?_, ?_, rfl, fun d => rfl, fun m => rfl⟩
  · intro e he
    have hr := route_submit_err B C clock (N+1) prompt uid e he
    rw [hr] at hout
    injection hout with hout
    rw [← hout]
  · intro r fs n e hsub h2 hj he hp
    have hr := route_reach_loop B C clock (N+1) prompt uid r fs hsub h2 hj he
    rw [hp] at hr
    rw [hr] at hout
    injection hout with hout
    rw [← hout]
  · intro r fs n s e hsub h2 hj he hp hres
    have hr := route_reach_loop B C clock (N+1) prompt uid r fs hsub h2 hj he
    rw [hp] at hr
    dsimp only at hr
    rw [hres] at hr
    rw [hr] at hout
    injection hout with hout
    rw [← hout]

/-- A backend whose submission request times out at the transport
layer. -/
def backendSubmitTimeout : Backend where
  submit := fun _ => .error .timeout
  statusResp := fun _ => .error (.other "unused")
  resultResp := .error (.other "unused")

theorem route_total_and_handler_map_witness :
    ∃ out, handle_default_route backendSubmitTimeout defaultConfig
        (fun k => (k : Int)) (121+1) "p" 1 = some out ∧
      (∀ e, backendSubmitTimeout.submit (requestBody "p" 1) = .error e →
        out.reply = excMsg e) ∧
      (∀ r fs n e, backendSubmitTimeout.submit (requestBody "p" 1) = .ok r →
        (200 ≤ r.status_code ∧ r.status_code < 300) →
        r.jsonBody.getD (.jobj .onil) = .jobj fs →
        pyTruthy (fs.get "execution_id") = true →
        pollLoop backendSubmitTimeout defaultConfig (fun k => (k : Int)) (121+1) 0
          = some (n, .exc e) →
        out.reply = excMsg e) ∧
      (∀ r fs n s e, backendSubmitTimeout.submit (requestBody "p" 1) = .ok r →
        (200 ≤ r.status_code ∧ r.status_code < 300) →
        r.jsonBody.getD (.jobj .onil) = .jobj fs →
        pyTruthy (fs.get "execution_id") = true →
        pollLoop backendSubmitTimeout defaultConfig (fun k => (k : Int)) (121+1) 0
          = some (n, .terminal s) →
        _get_result backendSubmitTimeout = .error e →
        out.reply = excMsg e) ∧
      excMsg .timeout = "⚠️ Backend timed out. Try again shortly." ∧
      (∀ d, excMsg (.requestErr d)
        = "❌ Network error. Backend unreachable." ++ "\n\nDetails: " ++ d) ∧
      (∀ m, excMsg (.other m) = "❌ Unexpected error: " ++ m) :=
  route_total_and_handler_map backendSubmitTimeout defaultConfig
    (fun k => (k : Int)) "p" 1 121 (by decide)
    (by simp)
    (fun k _ => by simp only [defaultConfig]; push_cast; omega)

/-! ## C9 -/

/-- C9: when the poll loop exits through the terminal branch after `n`
polls it has slept `n-1` times, and that total wait is at most the
budget plus one extra polling interval.  The clock model charges at
least one interval to each gap between consecutive budget checks (the
sleep), and no time before the first check. -/
theorem terminal_exit_wait_bound (B : Backend) (C : Config)
    (clock : Nat → Int) (fuel n : Nat) (s : String)
    (hp : 0 ≤ C.poll_interval) (hw : 0 ≤ C.max_wait)
    (h0 : clock 0 ≤ clock 1)
    (hstep : ∀ k, 1 ≤ k → clock k + C.poll_interval ≤ clock (k+1))
    (h : pollLoop B C clock fuel 0 = some (n, .terminal s)) :
    ((n - 1 : Nat) : Int) * C.poll_interval ≤ C.max_wait + C.poll_interval := by
  obtain ⟨h1, h2, _, _, _⟩ := pollLoop_run B C clock fuel 0 n (.terminal s) h
  rcases Nat.lt_or_ge n 2 with hn | hn
  · have hz : n - 1 = 0 := by omega
    rw [hz]
    simp
    linarith
  · obtain ⟨u, _, _, hck⟩ := h2 (n-2) (by omega) (by omega)
    have heq : n - 2 + 1 = n - 1 := by omega
    rw [heq] at hck
    have hch := clock_chain h0 hstep (n-2)
    rw [heq] at hch
    have hc2 : ((n-2 : Nat) : Int) * C.poll_interval ≤ C.max_wait := by linarith
    have hcast : ((n-1 : Nat) : Int) = ((n-2 : Nat) : Int) + 1 := by
      have hn1 : n - 1 = (n-2) + 1 := by omega
      rw [hn1]
      push_cast
      ring
    rw [hcast]
    have hring : (((n-2 : Nat) : Int) + 1) * C.poll_interval
        = ((n-2 : Nat) : Int) * C.poll_interval + C.poll_interval := by ring
    rw [hring]
    linarith

theorem terminal_exit_wait_bound_witness :
    (((2:Nat) - 1 : Nat) : Int) * defaultConfig.poll_interval
      ≤ defaultConfig.max_wait + defaultConfig.poll_interval :=
  terminal_exit_wait_bound backendC2 defaultConfig (fun k => (k : Int)) 10 2
    "completed" (by decide) (by decide) (by simp)
    (fun k _ => by simp only [defaultConfig]; push_cast; omega)
    (by decide)

/-! ## C10 -/

/-- Submission accepted; the only status poll returns HTTP 300 (a
non-2xx code below 400, so `raise_for_status` does not raise) with a
JSON body carrying a terminal status; the result fetch succeeds. -/
def backendC10 : Backend where
  submit := fun _ =>
    .ok ⟨202, "", some (.jobj (.ocons "execution_id" (.jstr "abc") .onil))⟩
  statusResp := fun _ =>
    .ok ⟨300, "", some (.jobj (.ocons "status" (.jstr "completed") .onil))⟩
  resultResp := okJson 200 (.ocons "final_result" (.jstr "ok") .onil)

/-- Submission accepted; poll 0 observes `running`, poll 1 returns
HTTP 503; the result fetch is unused. -/
def backendC10c : Backend where
  submit := fun _ =>
    .ok ⟨202, "", some (.jobj (.ocons "execution_id" (.jstr "abc") .onil))⟩
  statusResp := fun i =>
    if i = 0 then okJson 200 (.ocons "status" (.jstr "running") .onil)
    else .ok ⟨503, "", none⟩
  resultResp := .error (.other "unused")

/-- Submission accepted; poll 0 observes `completed`; the result fetch
returns HTTP 502. -/
def backendC10d : Backend where
  submit := fun _ =>
    .ok ⟨202, "", some (.jobj (.ocons "execution_id" (.jstr "abc") .onil))⟩
  statusResp := fun _ => okJson 200 (.ocons "status" (.jstr "completed") .onil)
  resultResp := .ok ⟨502, "bad", none⟩

/-- C10 is refuted as stated for ``non-2xx'': a status poll answered
with HTTP 300 — a non-2xx code — is not raised by `raise_for_status`
(which raises only for 400-599), so the run proceeds normally and
returns the extracted result `ok`, which is not the backend-unreachable
message for any detail. -/
theorem non2xx_poll_counterexample :
    ¬ (200 ≤ 300 ∧ 300 < 300) ∧
    (backendC10.statusResp 0 =
      .ok ⟨300, "", some (.jobj (.ocons "status" (.jstr "completed") .onil))⟩) ∧
    (handle_default_route backendC10 defaultConfig (fun k => (k : Int)) 5 "p" 1
      = some ⟨"ok", 1, true⟩) ∧
    (∀ d, ("ok" : String) ≠ UXnetworkErrMsg ++ "\n\nDetails: " ++ d) := by
  refine ⟨by decide, rfl, by decide, ?_⟩
  intro d h
  have h3 : ("ok" : String).data.length
      = (UXnetworkErrMsg ++ "\n\nDetails: " ++ d).data.length := by rw [h]
  rw [show (UXnetworkErrMsg ++ "\n\nDetails: " ++ d).data
      = (UXnetworkErrMsg.data ++ ("\n\nDetails: " : String).data) ++ d.data from rfl] at h3
  rw [List.length_append, List.length_append] at h3
  have l1 : ("ok" : String).data.length = 2 := by decide
  have l2 : 2 < UXnetworkErrMsg.data.length := by decide
  omega

/-- If every poll before `i` observed a non-terminal status and passed
the budget check, and poll `i` raises, the loop (given fuel) exits at
poll `i` with that exception. -/
theorem pollLoop_reaches_exc (B : Backend) (C : Config) (clock : Nat → Int)
    (e : PyExc) :
    ∀ (fuel j i : Nat), j ≤ i → i - j < fuel →
      (∀ k, j ≤ k → k < i → (∃ s, obsStatus B k = .ok s ∧
        s ∉ terminalStatuses) ∧ clock (k+1) - clock 0 ≤ C.max_wait) →
      _get_status B i = .error e →
      pollLoop B C clock fuel j = some (i+1, .exc e) := by
  intro fuel
  induction fuel with
  | zero => intro j i hji hfi _ _; omega
  | succ fuel ih =>
    intro j i hji hfi hprev hget
    rcases Nat.eq_or_lt_of_le hji with rfl | hlt
    · simp only [pollLoop, hget]
    · obtain ⟨⟨s, hok, hnt⟩, hck⟩ := hprev j (le_refl j) hlt
      simp only [pollLoop]
      cases hg : _get_status B j with
      | error e2 => simp [obsStatus, hg] at hok
      | ok p =>
        have hsl : statusLowerE p = .ok s := by
          simpa [obsStatus, hg] using hok
        dsimp only
        rw [hsl]
        dsimp only
        rw [if_neg hnt, if_neg (not_lt.mpr hck)]
        exact ih (j+1) i (by omega) (by omega)
          (fun k hk1 hk2 => hprev k (by omega) hk2) hget

/-- C10 (amended): in any run that reaches the poll loop, a status-poll
response with a 4xx or 5xx code — at whichever poll the loop reaches —
and likewise a 4xx/5xx result-fetch response after a terminal exit, is
raised by `raise_for_status` as an `HTTPError` (a transport-level
`RequestException`), so the route returns the backend-unreachable
message carrying the error detail; and that message is never the
backend-error code/body diagnostic, which is produced only at the
submission step.  Non-2xx codes below 400 are not raised (see the
counterexample). -/
theorem http_error_poll_maps_to_network_err (B : Backend) (C : Config)
    (clock : Nat → Int) (fuel : Nat) (prompt : String) (uid : Int)
    (r : HttpResponse) (fs : JObj)
    (hs : B.submit (requestBody prompt uid) = .ok r)
    (h2 : 200 ≤ r.status_code ∧ r.status_code < 300)
    (hj : r.jsonBody.getD (.jobj .onil) = .jobj fs)
    (he : pyTruthy (fs.get "execution_id") = true) :
    (∀ i rs, i < fuel →
      (∀ k, k < i → (∃ s, obsStatus B k = .ok s ∧ s ∉ terminalStatuses) ∧
        clock (k+1) - clock 0 ≤ C.max_wait) →
      B.statusResp i = .ok rs →
      400 ≤ rs.status_code → rs.status_code < 600 →
      handle_default_route B C clock fuel prompt uid
        = some ⟨excMsg (.requestErr (httpErrorDetail rs.status_code)),
                i+1, false⟩) ∧
    (∀ n s rr, pollLoop B C clock fuel 0 = some (n, .terminal s) →
      B.resultResp = .ok rr →
      400 ≤ rr.status_code → rr.status_code < 600 →
      handle_default_route B C clock fuel prompt uid
        = some ⟨excMsg (.requestErr (httpErrorDetail rr.status_code)),
                n, true⟩) ∧
    (∀ d code body, excMsg (.requestErr d) ≠ backendErrMsg code body) := by
  refine ⟨?_, ?_, ?_⟩
  · intro i rs hif hprev hst h4 h5
    have hget : _get_status B i
        = .error (.requestErr (httpErrorDetail rs.status_code)) := by
      unfold _get_status
      rw [hst]
      dsimp only
      unfold raise_for_status
      rw [if_pos ⟨h4, h5⟩]
    have hpoll := pollLoop_reaches_exc B C clock
      (.requestErr (httpErrorDetail rs.status_code)) fuel 0 i
      (by omega) (by omega) (fun k _ hk => hprev k hk) hget
    rw [route_reach_loop B C clock fuel prompt uid r fs hs h2 hj he, hpoll]
  · intro n s rr hp hres h4 h5
    have hget : _get_result B
        = .error (.requestErr (httpErrorDetail rr.status_code)) := by
      unfold _get_result
      rw [hres]
      dsimp only
      unfold raise_for_status
      rw [if_pos ⟨h4, h5⟩]
    rw [route_reach_loop B C clock fuel prompt uid r fs hs h2 hj he, hp]
    dsimp only
    rw [hget]
  · intro d code body h
    have h2eq : (UXnetworkErrMsg ++ "\n\nDetails: ") ++ d
        = "❌ Backend error " ++ (toString code ++ (":\n" ++ body)) := by
      rw [← str_append_assoc, ← str_append_assoc]
      exact h
    exact string_ne_of_clash (UXnetworkErrMsg ++ "\n\nDetails: ")
      "❌ Backend error " d (toString code ++ (":\n" ++ body))
      (by decide) (by decide) h2eq

theorem http_error_poll_maps_to_network_err_witness :
    (handle_default_route backendC10c defaultConfig (fun k => (k : Int)) 5 "p" 1
      = some ⟨excMsg (.requestErr (httpErrorDetail 503)), 2, false⟩) ∧
    (handle_default_route backendC10d defaultConfig (fun k => (k : Int)) 5 "p" 1
      = some ⟨excMsg (.requestErr (httpErrorDetail 502)), 1, true⟩) ∧
    (∀ d code body, excMsg (.requestErr d) ≠ backendErrMsg code body) := by
  refine ⟨?_, ?_, ?_⟩
  · exact (http_error_poll_maps_to_network_err backendC10c defaultConfig
      (fun k => (k : Int)) 5 "p" 1
      ⟨202, "", some (.jobj (.ocons "execution_id" (.jstr "abc") .onil))⟩
      (.ocons "execution_id" (.jstr "abc") .onil)
      rfl (by decide) rfl (by decide)).1 1 ⟨503, "", none⟩ (by decide)
      (fun k hk => by
        have hk0 : k = 0 := by omega
        subst hk0
        exact ⟨⟨"running", rfl, by decide⟩, by decide⟩)
      rfl (by decide) (by decide)
  · exact (http_error_poll_maps_to_network_err backendC10d defaultConfig
      (fun k => (k : Int)) 5 "p" 1
      ⟨202, "", some (.jobj (.ocons "execution_id" (.jstr "abc") .onil))⟩
      (.ocons "execution_id" (.jstr "abc") .onil)
      rfl (by decide) rfl (by decide)).2.1 1 "completed" ⟨502, "bad", none⟩
      (by decide) rfl (by decide) (by decide)
  · exact (http_error_poll_maps_to_network_err backendC10d defaultConfig
      (fun k => (k : Int)) 5 "p" 1
      ⟨202, "", some (.jobj (.ocons "execution_id" (.jstr "abc") .onil))⟩
      (.ocons "execution_id" (.jstr "abc") .onil)
      rfl (by decide) rfl (by decide)).2.2
